import Mathlib

/-!
Verification of the core of setlistfm-playlist-sync: the frequency ranker
(src/setlistfm_playlist_sync/utils.py) and the setlist retriever
(src/setlistfm_playlist_sync/setlist_api.py), shallowly embedded in Lean.

Conventions of the embedding:
- JSON payloads are an inductive `Json` type; Python dynamic faults
  (AttributeError, TypeError) are an explicit `PyErr` in `Except`.
- Machine integers are `Nat`/`Int` (Python integers are unbounded, so no
  wrap-around is modelled).
- Python `sorted` is a stable sort; it is embedded as `List.insertionSort`
  with the non-strict total key relation, which computes exactly the stable
  sort (equal-key elements keep their input order).
- Case folding (`str.lower`) and string comparison are modelled
  character-wise over the underlying code points, agreeing with Python on
  ASCII titles.
-/

/-! ## Frequency ranker: utils.top_songs

Source (utils.py, lines 5-12):
```
def top_songs(songs, n=20):
    counter = collections.Counter(songs)
    return [t[0] for t in sorted(
        counter.items(),
        key=lambda kv: (-kv[1], kv[0].lower())
    )[:n]]
```
-/

/-- ASCII lower-casing of one character (code points 65-90 shift by 32),
matching `Char.toLower` and Python on ASCII. -/
def lowerChar (c : Char) : Char :=
  if 65 ≤ c.toNat ∧ c.toNat ≤ 90 then Char.ofNat (c.toNat + 32) else c

/-- Python `str.lower()` (ASCII case folding, applied character-wise). -/
def pyLower (s : String) : String := String.mk (s.toList.map lowerChar)

/-- Python slice `l[:n]`: for `n ≥ 0` the first `n` elements, for `n < 0`
all but the last `|n|` elements (clamped at zero). -/
def pySliceTo (n : Int) (l : List α) : List α :=
  if 0 ≤ n then l.take n.toNat else l.take (l.length - (-n).toNat)

/-- Keys of `collections.Counter(songs)` in iteration order: Python dicts
iterate in insertion order, so the distinct titles appear in order of first
occurrence. -/
def firstKeys : List String → List String
  | [] => []
  | s :: rest => s :: (firstKeys rest).filter (fun t => t ≠ s)

/-- The pairs produced by `collections.Counter(songs).items()`: each distinct
title (in first-occurrence order) with its multiplicity in `songs`. -/
def counterItems (songs : List String) : List (String × Nat) :=
  (firstKeys songs).map (fun s => (s, songs.count s))

/-- Lexicographic comparison of character sequences by code point, the
ordering Python uses on strings (`a <= b`). -/
def charListLE : List Char → List Char → Bool
  | [], _ => true
  | _ :: _, [] => false
  | a :: as, b :: bs => a.toNat < b.toNat || (a.toNat == b.toNat && charListLE as bs)

/-- Python string comparison `a <= b`. -/
def pyStrLE (a b : String) : Bool := charListLE a.toList b.toList

theorem charListLE_total : ∀ a b, charListLE a b = true ∨ charListLE b a = true
  | [], _ => Or.inl rfl
  | _ :: _, [] => Or.inr rfl
  | a :: as, b :: bs => by
    rcases Nat.lt_trichotomy a.toNat b.toNat with h | h | h
    · exact Or.inl (by simp [charListLE, h])
    · rcases charListLE_total as bs with h2 | h2
      · exact Or.inl (by simp [charListLE, h, h2])
      · exact Or.inr (by simp [charListLE, h.symm, h2])
    · exact Or.inr (by simp [charListLE, h])

theorem charListLE_trans : ∀ a b c, charListLE a b = true → charListLE b c = true →
    charListLE a c = true
  | [], _, _ => by intro _ _; rfl
  | a :: as, [], c => by intro h; exact absurd h (by simp [charListLE])
  | a :: as, b :: bs, [] => by intro _ h; exact absurd h (by simp [charListLE])
  | a :: as, b :: bs, c :: cs => by
    simp only [charListLE, Bool.or_eq_true, Bool.and_eq_true, beq_iff_eq, decide_eq_true_eq]
    rintro (h1 | ⟨h1, h1'⟩) (h2 | ⟨h2, h2'⟩)
    · exact Or.inl (h1.trans h2)
    · exact Or.inl (h2 ▸ h1)
    · exact Or.inl (h1 ▸ h2)
    · exact Or.inr ⟨h1.trans h2, charListLE_trans as bs cs h1' h2'⟩

/-- The composite sort key of `top_songs` as a non-strict relation:
`a` may come no later than `b` iff `(-count a, lower a) ≤ (-count b, lower b)`
lexicographically, i.e. strictly larger count, or equal count and
case-insensitively no larger title. -/
def countKeyLE (a b : String × Nat) : Prop :=
  b.2 < a.2 ∨ (a.2 = b.2 ∧ pyStrLE (pyLower a.1) (pyLower b.1) = true)

instance : DecidableRel countKeyLE := fun a b => by
  unfold countKeyLE; infer_instance

instance : IsTotal (String × Nat) countKeyLE where
  total a b := by
    unfold countKeyLE
    rcases Nat.lt_trichotomy a.2 b.2 with h | h | h
    · exact Or.inr (Or.inl h)
    · rcases charListLE_total (pyLower a.1).toList (pyLower b.1).toList with h2 | h2
      · exact Or.inl (Or.inr ⟨h, h2⟩)
      · exact Or.inr (Or.inr ⟨h.symm, h2⟩)
    · exact Or.inl (Or.inl h)

instance : IsTrans (String × Nat) countKeyLE where
  trans a b c := by
    unfold countKeyLE
    rintro (h1 | ⟨h1, h1'⟩) (h2 | ⟨h2, h2'⟩)
    · exact Or.inl (h2.trans h1)
    · exact Or.inl (h2 ▸ h1)
    · exact Or.inl (h1 ▸ h2)
    · exact Or.inr ⟨h1.trans h2, charListLE_trans _ _ _ h1' h2'⟩

/-- The fully sorted `sorted(counter.items(), key=...)` list (before the
`[:n]` truncation). -/
def rankedItems (songs : List String) : List (String × Nat) :=
  List.insertionSort countKeyLE (counterItems songs)

/-- The full ranked sequence of distinct titles, of which every `top_songs`
result is a truncation. -/
def rankedTitles (songs : List String) : List String :=
  (rankedItems songs).map Prod.fst

/-- Embedding of `top_songs(songs, n)` (default `n` is 20 at call sites). -/
def topSongs (songs : List String) (n : Int) : List String :=
  (pySliceTo n (rankedItems songs)).map Prod.fst

example : topSongs ["Song A", "Song B", "Song A", "Song C", "Song A", "Song B"] 20 =
    ["Song A", "Song B", "Song C"] := by decide

example : topSongs ["a", "b"] (-1) = ["a"] := by decide

example : topSongs ["b", "B"] 20 = ["b", "B"] := by decide

/-! ## JSON values and Python dynamic semantics

The retriever manipulates decoded JSON dynamically. `Json` models the decoded
values; `PyErr` models the dynamic faults Python raises on a shape mismatch
(`AttributeError` for a method missing on the receiver, `TypeError` for an
unsupported operation).
-/

inductive Json where
  | null
  | bool (b : Bool)
  | num (n : Int)
  | str (s : String)
  | arr (elems : List Json)
  | obj (fields : List (String × Json))

inductive PyErr where
  | attributeError
  | typeError
deriving DecidableEq

/-- Lookup of a key in a JSON object (Python dict keys are unique). -/
def lookupField : List (String × Json) → String → Option Json
  | [], _ => none
  | (k, v) :: rest, key => if k = key then some v else lookupField rest key

/-- Python `receiver.get(key, default)`: the default applies only when the key
is absent (a key mapped to `null` yields `null`); a non-dict receiver raises
`AttributeError`. -/
def pyGet (j : Json) (key : String) (default : Json) : Except PyErr Json :=
  match j with
  | .obj fields => .ok ((lookupField fields key).getD default)
  | _ => .error .attributeError

/-- Python truthiness of a JSON value. -/
def truthy : Json → Bool
  | .null => false
  | .bool b => b
  | .num n => n != 0
  | .str s => !s.isEmpty
  | .arr l => !l.isEmpty
  | .obj f => !f.isEmpty

/-- Python iteration over a JSON value: lists yield elements, strings yield
one-character strings, dicts yield their keys; other values raise
`TypeError`. -/
def pyIter : Json → Except PyErr (List Json)
  | .arr l => .ok l
  | .str s => .ok (s.toList.map (fun c => .str (String.mk [c])))
  | .obj f => .ok (f.map (fun kv => .str kv.1))
  | _ => .error .typeError

/-- Python `len` on a JSON value; numbers, booleans and `null` raise
`TypeError`. -/
def pyLen : Json → Except PyErr Nat
  | .str s => .ok s.length
  | .arr l => .ok l.length
  | .obj f => .ok f.length
  | _ => .error .typeError

/-- Python slice `x[-4:]` (the last four elements, or all of them when the
length is below four); dicts and scalars raise `TypeError`. -/
def pyTail4 : Json → Except PyErr Json
  | .str s => .ok (.str (String.mk (s.toList.drop (s.length - 4))))
  | .arr l => .ok (.arr (l.drop (l.length - 4)))
  | _ => .error .typeError

/-- Python `==` between a JSON value and a string: equal strings compare
equal, any non-string value compares unequal (no error). -/
def pyEqStr (j : Json) (s : String) : Bool :=
  match j with
  | .str t => t == s
  | _ => false

/-- Python `str.isdigit` restricted to ASCII digits (the only characters the
claims exercise); a non-string receiver raises `AttributeError`. -/
def pyIsdigit : Json → Except PyErr Bool
  | .str s => .ok (!s.isEmpty && s.toList.all Char.isDigit)
  | _ => .error .attributeError

/-- Value of `int(s)` on a string of ASCII digits. -/
def digitsToNat (s : String) : Nat :=
  s.toList.foldl (fun a c => a * 10 + (c.toNat - 48)) 0

/-- Value of `int(setlist_year)` as used in the year comparison; only ever
evaluated under an `isdigit` guard, so non-strings are unreachable. -/
def jsonDigitsToNat : Json → Nat
  | .str s => digitsToNat s
  | _ => 0

/-- A JSON value usable as a Python `int` operand: a number, or a boolean
(Python booleans are integers 0 and 1). -/
def jsonAsInt : Json → Option Int
  | .num n => some n
  | .bool b => some (if b then 1 else 0)
  | _ => none

/-! ## Song extraction: setlist_api._extract_songs_from_setlist

Source (setlist_api.py, lines 169-189):
```
def _extract_songs_from_setlist(setlist):
    songs = []
    sets_data = setlist.get("sets", {})
    sets = sets_data.get("set", [])
    if not isinstance(sets, list):
        sets = [sets] if sets else []
    for set_data in sets:
        if not set_data:
            continue
        set_songs = set_data.get("song", [])
        for song in set_songs:
            name = song.get("name")
            if name and not song.get("tape"):
                songs.append(name)
    return songs
```
-/

/-- Inner loop over the entries of one Set group: append each name that is
present and truthy when the entry carries no truthy tape marker. -/
def songLoop : List Json → List Json → Except PyErr (List Json)
  | [], acc => .ok acc
  | song :: rest, acc => do
    let name ← pyGet song "name" .null
    if truthy name then do
      let tape ← pyGet song "tape" .null
      songLoop rest (if truthy tape then acc else acc ++ [name])
    else
      songLoop rest acc

/-- Outer loop over the (already normalized) sequence of Set groups; falsy
groups are skipped. -/
def setLoop : List Json → List Json → Except PyErr (List Json)
  | [], acc => .ok acc
  | setData :: rest, acc =>
    if truthy setData then do
      let setSongs ← pyGet setData "song" (.arr [])
      let songList ← pyIter setSongs
      let acc2 ← songLoop songList acc
      setLoop rest acc2
    else
      setLoop rest acc

/-- Embedding of `_extract_songs_from_setlist`. -/
def extractSongsFromSetlist (setlist : Json) : Except PyErr (List Json) := do
  let setsData ← pyGet setlist "sets" (.obj [])
  let setsRaw ← pyGet setsData "set" (.arr [])
  let sets : List Json :=
    match setsRaw with
    | .arr l => l
    | other => if truthy other then [other] else []
  setLoop sets []

example : extractSongsFromSetlist (.obj []) = .ok [] := rfl

example : extractSongsFromSetlist (.obj [("sets", .obj [])]) = .ok [] := rfl

example : extractSongsFromSetlist (.obj [("sets", .null)]) = .error .attributeError := rfl

example :
    extractSongsFromSetlist (.obj [("sets", .obj [("set",
      .arr [.obj [("song", .arr [.obj [("name", .str "Song 1")],
                                 .obj [("name", .str "Song 2")]])]])])]) =
      .ok [.str "Song 1", .str "Song 2"] := rfl

/-! ## Request protocol: setlist_api.make_request

Source (setlist_api.py, lines 35-68). The network is modelled as a map from
the attempt index (each loop iteration performs exactly one `requests.get`)
to an outcome: either a response, or a connectivity failure, i.e. a
`RequestException` raised by `requests.get` itself, which carries no
response. The `Retry-After` header is modelled as an optional integer value.

Observable effects are traced as events: each `requests.get` call and each
`time.sleep` with its duration.
-/

structure HttpResponse where
  status : Nat
  retryAfter : Option Nat
  body : Json

inductive AttemptOutcome where
  | resp (r : HttpResponse)
  | connFailure

/-- Errors `make_request` can raise.

The re-raise at line 61 guards on `e.response` being truthy, but
`requests.Response.__bool__` is `Response.ok`, which is `False` for every
error status (400-599) — exactly the statuses for which `raise_for_status()`
raises the `HTTPError` being handled — and connectivity failures carry
`response = None`. The truthiness test therefore never passes and line 61 is
dead code: every caught exception goes to the retry logic and, at the cap,
to the line-65 `RuntimeError` whose message embeds the last cause.

`retryExhaustedHttp s`: the `RuntimeError` of line 65 wrapping an
`HTTPError` whose response carried error status `s`.

`retryExhaustedConn`: the `RuntimeError` of line 65 wrapping a connectivity
failure (a `RequestException` from `requests.get` itself, with no response).

`retryExhaustedNoCause`: the bare `RuntimeError("Failed to make request
after max retries")` of line 68, raised when every attempt got HTTP 429; its
message does not reference any underlying cause. -/
inductive ReqError where
  | retryExhaustedHttp (status : Nat)
  | retryExhaustedConn
  | retryExhaustedNoCause
deriving DecidableEq

inductive Event where
  | request (attempt : Nat)
  | sleep (seconds : Nat)
deriving DecidableEq

def RATE_LIMIT_DELAY : Nat := 1
def MAX_RETRIES : Nat := 3

/-- One execution of the `while attempts < MAX_RETRIES` loop body onwards.
`fuel` maintains `fuel = MAX_RETRIES - attempts`, so `fuel = 0` is the loop
exit of line 68.

On an error-status response, `raise_for_status()` raises `HTTPError`, whose
`response` is falsy (`Response.ok` is `False` on 400-599), so the line-61
re-raise does not fire: like a connectivity failure, the attempt counter is
bumped without any sleep and the request is retried, until
`attempts >= MAX_RETRIES - 1` raises the wrapping `RuntimeError` of
line 65. -/
def makeRequestLoop (env : Nat → AttemptOutcome) :
    Nat → Nat → Nat → Except ReqError HttpResponse × List Event
  | _, _, 0 => (.error .retryExhaustedNoCause, [])
  | retryAfter, attempts, fuel + 1 =>
    match env attempts with
    | .resp r =>
      if r.status == 429 then
        let d := r.retryAfter.getD (retryAfter * 2)
        let rec2 := makeRequestLoop env d (attempts + 1) fuel
        (rec2.1, .request attempts :: .sleep d :: rec2.2)
      else if 400 ≤ r.status then
        if MAX_RETRIES - 1 ≤ attempts then
          (.error (.retryExhaustedHttp r.status), [.request attempts])
        else
          let rec2 := makeRequestLoop env retryAfter (attempts + 1) fuel
          (rec2.1, .request attempts :: rec2.2)
      else
        (.ok r, [.request attempts, .sleep RATE_LIMIT_DELAY])
    | .connFailure =>
      if MAX_RETRIES - 1 ≤ attempts then
        (.error .retryExhaustedConn, [.request attempts])
      else
        let rec2 := makeRequestLoop env retryAfter (attempts + 1) fuel
        (rec2.1, .request attempts :: rec2.2)

/-- Embedding of `make_request`: initial backoff `RATE_LIMIT_DELAY`, attempt
counter 0, at most `MAX_RETRIES` attempts. -/
def makeRequest (env : Nat → AttemptOutcome) : Except ReqError HttpResponse × List Event :=
  makeRequestLoop env RATE_LIMIT_DELAY 0 MAX_RETRIES

/-! ## Paginated fetch: setlist_api.fetch_setlists_for_year

Source (setlist_api.py, lines 102-166). The network is a map from the page
number to a per-attempt environment for `make_request`. The trace records
the page number of every `make_request` call issued. An exception anywhere
(from `make_request`, or a Python dynamic fault while processing the page
payload) propagates to the caller and stops the iteration.
-/

inductive FetchError where
  | req (e : ReqError)
  | py (e : PyErr)

/-- Processing of one setlist entry of a page: extend `songs` when the
event-date year suffix matches the target year, set the older-data flag when
the suffix is an integer below the target year. -/
def processSetlist (targetYear : String) (year : Int) (setlist : Json)
    (songs : List Json) (older : Bool) : Except PyErr (List Json × Bool) := do
  let eventDate ← pyGet setlist "eventDate" (.str "")
  let n ← pyLen eventDate
  if 10 ≤ n then do
    let setlistYear ← pyTail4 eventDate
    if pyEqStr setlistYear targetYear then do
      let extracted ← extractSongsFromSetlist setlist
      pure (songs ++ extracted, older)
    else do
      let isdig ← pyIsdigit setlistYear
      if isdig && decide ((jsonDigitsToNat setlistYear : Int) < year) then
        pure (songs, true)
      else
        pure (songs, older)
  else
    pure (songs, older)

/-- The `for setlist in setlists` loop of one page. -/
def setlistsLoop (targetYear : String) (year : Int) :
    List Json → List Json → Bool → Except PyErr (List Json × Bool)
  | [], songs, older => .ok (songs, older)
  | sl :: rest, songs, older => do
    let (songs2, older2) ← processSetlist targetYear year sl songs older
    setlistsLoop targetYear year rest songs2 older2

/-- The `for page_num in range(1, max_pages + 1)` loop, with
`fuel = max_pages + 1 - pageNum` remaining iterations. Returns the result
and the list of page numbers for which a `make_request` call was issued. -/
def fetchLoop (pages : Nat → Nat → AttemptOutcome) (targetYear : String) (year : Int) :
    Nat → Nat → List Json → Except FetchError (List Json) × List Nat
  | 0, _, songs => (.ok songs, [])
  | fuel + 1, pageNum, songs =>
    match (makeRequest (pages pageNum)).1 with
    | .error e => (.error (.req e), [pageNum])
    | .ok r =>
      -- the `if r.status_code == 404: break` of line 126; unreachable in
      -- fact, because `make_request` never returns an error-status response
      if r.status == 404 then (.ok songs, [pageNum])
      else
        match pyGet r.body "setlist" (.arr []) with
        | .error e => (.error (.py e), [pageNum])
        | .ok setlists =>
          if !truthy setlists then (.ok songs, [pageNum])
          else
            match pyIter setlists with
            | .error e => (.error (.py e), [pageNum])
            | .ok setlistList =>
              match setlistsLoop targetYear year setlistList songs false with
              | .error e => (.error (.py e), [pageNum])
              | .ok (songs2, older) =>
                if older then (.ok songs2, [pageNum])
                else
                  match pyGet r.body "total" (.num 0),
                        pyGet r.body "itemsPerPage" (.num 20) with
                  | .error e, _ => (.error (.py e), [pageNum])
                  | .ok _, .error e => (.error (.py e), [pageNum])
                  | .ok total, .ok itemsPerPage =>
                    match jsonAsInt total, jsonAsInt itemsPerPage with
                    | some t, some ipp =>
                      if t ≤ (pageNum : Int) * ipp then (.ok songs2, [pageNum])
                      else
                        let rec2 := fetchLoop pages targetYear year fuel (pageNum + 1) songs2
                        (rec2.1, pageNum :: rec2.2)
                    -- `page_num * items_per_page >= total` on non-numeric
                    -- operands: Python raises TypeError when the final
                    -- comparison is unsupported (e.g. a repeated string
                    -- against an int), but would succeed when both fields
                    -- are sequences (int times a sequence repeats it). The
                    -- whole non-numeric path is outside every claim and is
                    -- simplified to a TypeError here
                    | _, _ => (.error (.py .typeError), [pageNum])

/-- Embedding of `fetch_setlists_for_year`: pages start at 1 and the target
year is compared as the string `str(year)`. -/
def fetchSetlistsForYear (pages : Nat → Nat → AttemptOutcome) (year : Int)
    (maxPages : Nat) : Except FetchError (List Json) × List Nat :=
  fetchLoop pages (toString year) year maxPages 1 []

/-! ## Lemmas about the frequency ranker -/

open List

theorem charListLE_refl : ∀ l, charListLE l l = true
  | [] => rfl
  | a :: as => by simp [charListLE, charListLE_refl as]

theorem firstKeys_nodup : ∀ L, (firstKeys L).Nodup
  | [] => List.nodup_nil
  | s :: rest => by
    refine List.nodup_cons.mpr ⟨fun hmem => ?_, (firstKeys_nodup rest).filter _⟩
    have := (List.mem_filter.mp hmem).2
    simp at this

theorem mem_firstKeys : ∀ L t, t ∈ firstKeys L ↔ t ∈ L
  | [], t => Iff.rfl
  | s :: rest, t => by
    by_cases h : t = s
    · subst h
      simp [firstKeys]
    · simp only [firstKeys, List.mem_cons, List.mem_filter, mem_firstKeys rest t]
      simp [h]

theorem firstKeys_order (L : List String) (x y : String) (hxy : x ≠ y)
    (hx : x ∈ L) (hy : y ∈ L) (hidx : L.indexOf x < L.indexOf y) :
    [x, y] <+ firstKeys L := by
  induction L with
  | nil => cases hx
  | cons s rest ih =>
    by_cases hsx : x = s
    · subst hsx
      have hyr : y ∈ rest := by
        rcases List.mem_cons.mp hy with h | h
        · exact absurd h.symm hxy
        · exact h
      have : y ∈ (firstKeys rest).filter (fun t => t ≠ x) := by
        refine List.mem_filter.mpr ⟨(mem_firstKeys rest y).mpr hyr, ?_⟩
        simp [Ne.symm hxy]
      exact (List.cons_sublist_cons).mpr (List.singleton_sublist.mpr this)
    · by_cases hsy : y = s
      · subst hsy
        rw [List.indexOf_cons_self] at hidx
        exact absurd hidx (Nat.not_lt_zero _)
      · have hx' : x ∈ rest := by
          rcases List.mem_cons.mp hx with h | h
          · exact absurd h hsx
          · exact h
        have hy' : y ∈ rest := by
          rcases List.mem_cons.mp hy with h | h
          · exact absurd h hsy
          · exact h
        have hidx' : rest.indexOf x < rest.indexOf y := by
          rw [List.indexOf_cons_ne _ (Ne.symm hsx),
              List.indexOf_cons_ne _ (Ne.symm hsy)] at hidx
          omega
        have hsub : [x, y] <+ firstKeys rest := ih hx' hy' hidx'
        have hfil : [x, y] <+ (firstKeys rest).filter (fun t => t ≠ s) := by
          have := hsub.filter (fun t => t ≠ s)
          simpa [List.filter, hsx, hsy] using this
        exact hfil.cons s

theorem counterItems_map_fst (L : List String) :
    (counterItems L).map Prod.fst = firstKeys L := by
  have h : (Prod.fst ∘ fun s => (s, L.count s)) = id := funext (fun _ => rfl)
  rw [counterItems, List.map_map, h, List.map_id]

theorem counterItems_counts {L : List String} {p : String × Nat}
    (hp : p ∈ counterItems L) : p.2 = L.count p.1 := by
  rcases List.mem_map.mp hp with ⟨s, _, rfl⟩
  rfl

theorem rankedItems_perm (L : List String) : rankedItems L ~ counterItems L :=
  List.perm_insertionSort countKeyLE (counterItems L)

theorem rankedItems_sorted (L : List String) :
    List.Sorted countKeyLE (rankedItems L) :=
  List.sorted_insertionSort countKeyLE (counterItems L)

theorem rankedTitles_perm_firstKeys (L : List String) :
    rankedTitles L ~ firstKeys L := by
  have := (rankedItems_perm L).map Prod.fst
  rwa [counterItems_map_fst] at this

theorem rankedTitles_nodup (L : List String) : (rankedTitles L).Nodup :=
  ((rankedTitles_perm_firstKeys L).symm.nodup (firstKeys_nodup L))

theorem mem_rankedTitles (L : List String) (s : String) :
    s ∈ rankedTitles L ↔ s ∈ L :=
  ((rankedTitles_perm_firstKeys L).mem_iff).trans (mem_firstKeys L s)

theorem firstKeys_length_eq_dedup (L : List String) :
    (firstKeys L).length = L.dedup.length := by
  have h1 : firstKeys L <+~ L.dedup :=
    (firstKeys_nodup L).subperm (fun t ht => List.mem_dedup.mpr ((mem_firstKeys L t).mp ht))
  have h2 : L.dedup <+~ firstKeys L :=
    (List.nodup_dedup L).subperm (fun t ht => (mem_firstKeys L t).mpr (List.mem_dedup.mp ht))
  exact (h1.antisymm h2).length_eq

theorem rankedTitles_length (L : List String) :
    (rankedTitles L).length = L.dedup.length :=
  (rankedTitles_perm_firstKeys L).length_eq.trans (firstKeys_length_eq_dedup L)

theorem topSongs_eq_take (L : List String) (n : Int) (hn : 0 ≤ n) :
    topSongs L n = (rankedTitles L).take n.toNat := by
  rw [topSongs, pySliceTo, if_pos hn, rankedTitles, List.map_take]

/-! ## Claims about the frequency ranker -/

/-- C3 counterexample: the claim states that `top_songs(L, N)` is empty for
every `N ≤ 0`, but Python list slicing `[:n]` with a negative bound keeps
all but the last `|n|` elements, so `top_songs(["a", "b"], -1)` returns
`["a"]`, not `[]`. -/
theorem topSongs_negative_n_not_empty :
    ((-1 : Int) ≤ 0) ∧ topSongs ["a", "b"] (-1) = ["a"] ∧
      topSongs ["a", "b"] (-1) ≠ [] :=
  ⟨by decide, by decide, by decide⟩

/-- C3 amended: `top_songs(L, 0)` is empty for every song list `L`, and
`top_songs([], N)` is empty for every integer `N`; for negative `N` on a
nonempty list the result is instead the ranked sequence with its trailing
`|N|` entries removed. -/
theorem topSongs_zero_or_empty_eq_nil :
    (∀ L : List String, topSongs L 0 = []) ∧ (∀ n : Int, topSongs ([] : List String) n = []) := by
  constructor
  · intro L
    rw [topSongs_eq_take L 0 le_rfl]
    simp
  · intro n
    have h : rankedItems ([] : List String) = [] := rfl
    rw [topSongs, h]
    unfold pySliceTo
    split <;> simp

/-- C4: for `N ≥ 0`, `top_songs(L, N)` is the `N`-element truncation of the
full ranked sequence: the distinct exact titles of `L` (no duplicates,
containing exactly the titles of `L`), carrying their occurrence counts,
sorted by descending count and then ascending case-insensitive title; the
output length is `min N (number of distinct titles)`, and the worked example
of the specification evaluates as stated. -/
theorem topSongs_is_ranked_truncation (L : List String) (n : Int) (hn : 0 ≤ n) :
    topSongs L n = (rankedTitles L).take n.toNat ∧
    List.Sorted countKeyLE (rankedItems L) ∧
    (∀ p ∈ rankedItems L, p.2 = L.count p.1) ∧
    (rankedTitles L).Nodup ∧
    (∀ s, s ∈ rankedTitles L ↔ s ∈ L) ∧
    (topSongs L n).length = min n.toNat L.dedup.length ∧
    topSongs ["Song A", "Song B", "Song A", "Song C", "Song A", "Song B"] 20 =
      ["Song A", "Song B", "Song C"] := by
  refine ⟨topSongs_eq_take L n hn, rankedItems_sorted L,
    fun p hp => counterItems_counts ((rankedItems_perm L).mem_iff.mp hp),
    rankedTitles_nodup L, mem_rankedTitles L, ?_, by decide⟩
  rw [topSongs_eq_take L n hn, List.length_take, rankedTitles_length]

/-- C4 witness at the worked example of the specification. -/
theorem topSongs_is_ranked_truncation_witness :
    (0 : Int) ≤ 20 ∧
    (topSongs ["Song A", "Song B", "Song A", "Song C", "Song A", "Song B"] 20 =
        (rankedTitles ["Song A", "Song B", "Song A", "Song C", "Song A", "Song B"]).take
          (20 : Int).toNat ∧
      List.Sorted countKeyLE
        (rankedItems ["Song A", "Song B", "Song A", "Song C", "Song A", "Song B"]) ∧
      (∀ p ∈ rankedItems ["Song A", "Song B", "Song A", "Song C", "Song A", "Song B"],
        p.2 = ["Song A", "Song B", "Song A", "Song C", "Song A", "Song B"].count p.1) ∧
      (rankedTitles ["Song A", "Song B", "Song A", "Song C", "Song A", "Song B"]).Nodup ∧
      (∀ s, s ∈ rankedTitles ["Song A", "Song B", "Song A", "Song C", "Song A", "Song B"] ↔
        s ∈ ["Song A", "Song B", "Song A", "Song C", "Song A", "Song B"]) ∧
      (topSongs ["Song A", "Song B", "Song A", "Song C", "Song A", "Song B"] 20).length =
        min (20 : Int).toNat
          ["Song A", "Song B", "Song A", "Song C", "Song A", "Song B"].dedup.length ∧
      topSongs ["Song A", "Song B", "Song A", "Song C", "Song A", "Song B"] 20 =
        ["Song A", "Song B", "Song C"]) :=
  ⟨by decide,
   topSongs_is_ranked_truncation ["Song A", "Song B", "Song A", "Song C", "Song A", "Song B"]
     20 (by decide)⟩

/-- C9: for `0 ≤ N ≤ M`, `top_songs(L, N)` is a prefix of `top_songs(L, M)`:
both are truncations of the same ranked sequence, so shrinking `N` never
reorders the retained entries. -/
theorem topSongs_monotone_truncation (L : List String) (n m : Int)
    (hn : 0 ≤ n) (hnm : n ≤ m) :
    topSongs L n <+: topSongs L m := by
  rw [topSongs_eq_take L n hn, topSongs_eq_take L m (hn.trans hnm)]
  have h : n.toNat ≤ m.toNat := Int.toNat_le_toNat hnm
  have he : (rankedTitles L).take n.toNat = ((rankedTitles L).take m.toNat).take n.toNat := by
    rw [List.take_take, Nat.min_eq_left h]
  rw [he]
  exact ⟨((rankedTitles L).take m.toNat).drop n.toNat, List.take_append_drop _ _⟩

/-- C9 witness at a concrete three-title list with `N = 1`, `M = 2`. -/
theorem topSongs_monotone_truncation_witness :
    (0 : Int) ≤ 1 ∧ (1 : Int) ≤ 2 ∧
      topSongs ["c", "a", "b"] 1 <+: topSongs ["c", "a", "b"] 2 :=
  ⟨by decide, by decide, topSongs_monotone_truncation ["c", "a", "b"] 1 2 (by decide) (by decide)⟩

/-- C10: when two distinct exact titles have equal occurrence counts and
equal case-insensitive forms, their relative order in the ranked output is
their first-occurrence order in the input (stability of the sort over the
insertion-ordered counter); on `["b", "B"]` the output is `["b", "B"]`,
which is not sorted by exact-string comparison (Python would order `"B"`
before `"b"`), so the order is deterministic but not exact-string
lexicographic. -/
theorem topSongs_case_tie_keeps_first_occurrence_order :
    (∀ (L : List String) (x y : String), x ≠ y → x ∈ L → y ∈ L →
      L.count x = L.count y → pyLower x = pyLower y →
      L.indexOf x < L.indexOf y → [x, y] <+ rankedTitles L) ∧
    rankedTitles ["b", "B"] = ["b", "B"] ∧
    ¬ List.Sorted (fun a b : String => pyStrLE a b = true) (rankedTitles ["b", "B"]) := by
  refine ⟨?_, by decide, by decide⟩
  intro L x y hxy hx hy hcnt hlow hidx
  have hkeys : [x, y] <+ firstKeys L := firstKeys_order L x y hxy hx hy hidx
  have hitems : [(x, L.count x), (y, L.count y)] <+ counterItems L := by
    have h := hkeys.map (fun s => (s, L.count s))
    simpa [counterItems] using h
  have hle : countKeyLE (x, L.count x) (y, L.count y) :=
    Or.inr ⟨hcnt, by rw [pyStrLE, hlow]; exact charListLE_refl _⟩
  have hsorted := List.pair_sublist_insertionSort hle hitems
  have hmap := hsorted.map Prod.fst
  simpa [rankedTitles, rankedItems] using hmap

/-- C10 witness: the general stability statement applied to `["b", "B"]`. -/
theorem topSongs_case_tie_keeps_first_occurrence_order_witness :
    ("b" : String) ≠ "B" ∧ "b" ∈ ["b", "B"] ∧ "B" ∈ ["b", "B"] ∧
      ["b", "B"].count "b" = ["b", "B"].count "B" ∧ pyLower "b" = pyLower "B" ∧
      ["b", "B"].indexOf "b" < ["b", "B"].indexOf "B" ∧
      ["b", "B"] <+ rankedTitles ["b", "B"] :=
  ⟨by decide, by decide, by decide, by decide, by decide, by decide,
   topSongs_case_tie_keeps_first_occurrence_order.1 ["b", "B"] "b" "B" (by decide)
     (by decide) (by decide) (by decide) (by decide) (by decide)⟩

/-! ## Claims about the request protocol -/

theorem makeRequestLoop_succ (env : Nat → AttemptOutcome) (ra att fuel : Nat) :
    makeRequestLoop env ra att (fuel + 1) =
      match env att with
      | .resp r =>
        if r.status == 429 then
          let d := r.retryAfter.getD (ra * 2)
          let rec2 := makeRequestLoop env d (att + 1) fuel
          (rec2.1, .request att :: .sleep d :: rec2.2)
        else if 400 ≤ r.status then
          if MAX_RETRIES - 1 ≤ att then
            (.error (.retryExhaustedHttp r.status), [.request att])
          else
            let rec2 := makeRequestLoop env ra (att + 1) fuel
            (rec2.1, .request att :: rec2.2)
        else
          (.ok r, [.request att, .sleep RATE_LIMIT_DELAY])
      | .connFailure =>
        if MAX_RETRIES - 1 ≤ att then
          (.error .retryExhaustedConn, [.request att])
        else
          let rec2 := makeRequestLoop env ra (att + 1) fuel
          (rec2.1, .request att :: rec2.2) := rfl

/-- C1 evidence: the claim states the intent of the code — the comment at
line 61 reads "Re-raise non-rate-limit errors immediately" and the test
`test_make_request_non_rate_limit_error` expects the `HTTPError` to
propagate with no sleep — but the guard `e.response` at line 60 is a
truthiness test, and `requests.Response.__bool__` is `Response.ok`, which is
`False` for every error status, so the re-raise never fires (the test only
passes because it installs a truthy `Mock` as the response). On a 500 or a
404 response at every attempt, the program instead issues three requests
with no sleep and raises the line-65 `RuntimeError` wrapping the last
`HTTPError`, rather than failing on the first attempt with the HTTP error
unchanged. -/
theorem makeRequest_non429_error_retries_and_wraps :
    makeRequest (fun _ => .resp ⟨500, none, .null⟩) =
      (.error (.retryExhaustedHttp 500), [.request 0, .request 1, .request 2]) ∧
    makeRequest (fun _ => .resp ⟨404, none, .null⟩) =
      (.error (.retryExhaustedHttp 404), [.request 0, .request 1, .request 2]) :=
  ⟨rfl, rfl⟩

/-- C5 amended: on a 429 response `make_request` sleeps for the value of the
Retry-After header (defaulting to twice the current backoff, initially 1,
when the header is absent) and retries, up to `MAX_RETRIES = 3` attempts: a
429 followed by a success yields the success payload after sleeping before
the retry, and 429 on every attempt exhausts the cap and raises the
RetryExhausted-style `RuntimeError` of line 68 — which, contrary to the
original claim, does not wrap the last underlying cause. -/
theorem makeRequest_rate_limit_retry_protocol :
    (∀ (env : Nat → AttemptOutcome) (ra : Option Nat) (b : Json) (r1 : HttpResponse),
      env 0 = .resp ⟨429, ra, b⟩ → env 1 = .resp r1 → r1.status < 400 →
      makeRequest env =
        (.ok r1, [.request 0, .sleep (ra.getD 2), .request 1, .sleep 1])) ∧
    (∀ (env : Nat → AttemptOutcome) (o0 o1 o2 : Option Nat) (b0 b1 b2 : Json),
      env 0 = .resp ⟨429, o0, b0⟩ → env 1 = .resp ⟨429, o1, b1⟩ →
      env 2 = .resp ⟨429, o2, b2⟩ →
      makeRequest env =
        (.error .retryExhaustedNoCause,
         [.request 0, .sleep (o0.getD 2),
          .request 1, .sleep (o1.getD (o0.getD 2 * 2)),
          .request 2, .sleep (o2.getD (o1.getD (o0.getD 2 * 2) * 2))])) := by
  constructor
  · intro env ra b r1 h0 h1 hok
    have hne : (r1.status == 429) = false := by
      simp only [beq_eq_false_iff_ne, ne_eq]
      omega
    have hlt : ¬ 400 ≤ r1.status := by omega
    rw [show makeRequest env = makeRequestLoop env 1 0 (2 + 1) from rfl,
      makeRequestLoop_succ, h0]
    simp only [beq_self_eq_true, if_true]
    rw [show (2 : Nat) = 1 + 1 from rfl, makeRequestLoop_succ, h1]
    simp [hne, hlt, RATE_LIMIT_DELAY]
  · intro env o0 o1 o2 b0 b1 b2 h0 h1 h2
    rw [show makeRequest env = makeRequestLoop env 1 0 (2 + 1) from rfl,
      makeRequestLoop_succ, h0]
    simp only [beq_self_eq_true, if_true]
    rw [show (2 : Nat) = 1 + 1 from rfl, makeRequestLoop_succ, h1]
    simp only [beq_self_eq_true, if_true]
    rw [show (1 : Nat) = 0 + 1 from rfl, makeRequestLoop_succ, h2]
    simp [makeRequestLoop]

/-- C5 witness: a 429 with header value 7 followed by a 200, and three 429
responses without header (backoff defaults double: 2, 4, 8). -/
theorem makeRequest_rate_limit_retry_protocol_witness :
    ((fun a : Nat => if a = 0 then AttemptOutcome.resp ⟨429, some 7, .null⟩
        else .resp ⟨200, none, .str "payload"⟩) 0 = .resp ⟨429, some 7, .null⟩ ∧
      (fun a : Nat => if a = 0 then AttemptOutcome.resp ⟨429, some 7, .null⟩
        else .resp ⟨200, none, .str "payload"⟩) 1 = .resp ⟨200, none, .str "payload"⟩ ∧
      (200 : Nat) < 400 ∧
      makeRequest (fun a => if a = 0 then .resp ⟨429, some 7, .null⟩
        else .resp ⟨200, none, .str "payload"⟩) =
        (.ok ⟨200, none, .str "payload"⟩,
         [.request 0, .sleep ((some 7).getD 2), .request 1, .sleep 1])) ∧
    makeRequest (fun _ => .resp ⟨429, none, .null⟩) =
      (.error .retryExhaustedNoCause,
       [.request 0, .sleep ((none : Option Nat).getD 2),
        .request 1, .sleep ((none : Option Nat).getD ((none : Option Nat).getD 2 * 2)),
        .request 2,
        .sleep ((none : Option Nat).getD
          ((none : Option Nat).getD ((none : Option Nat).getD 2 * 2) * 2))]) :=
  ⟨⟨rfl, rfl, by decide,
    makeRequest_rate_limit_retry_protocol.1 _ (some 7) .null ⟨200, none, .str "payload"⟩
      rfl rfl (by decide)⟩,
   makeRequest_rate_limit_retry_protocol.2 _ none none none .null .null .null rfl rfl rfl⟩

/-- C5 counterexample: with 429 on every attempt, the error raised after the
cap is the bare `RuntimeError` of line 68 (`retryExhaustedNoCause`), which
does not wrap any underlying cause — refuting the claim that the
RetryExhausted-style error wraps the last cause. -/
theorem makeRequest_exhaustion_error_carries_no_cause :
    makeRequest (fun _ => .resp ⟨429, none, .null⟩) =
      (.error .retryExhaustedNoCause,
       [.request 0, .sleep 2, .request 1, .sleep 4, .request 2, .sleep 8]) ∧
    ReqError.retryExhaustedNoCause ≠ .retryExhaustedConn :=
  ⟨rfl, by decide⟩

/-! ## Claims about song extraction and the 404 page break -/

/-- C2 evidence: a "not found" page response never reaches the
`if r.status_code == 404: break` of line 126, because `make_request` calls
`raise_for_status()` on it first: the resulting `HTTPError` is caught, the
request is retried (the line-61 re-raise never fires, since an error-status
`Response` is falsy), and after three 404 attempts `make_request` raises the
line-65 `RuntimeError` wrapping the `HTTPError`; `fetch_setlists_for_year`
therefore propagates an error to its caller instead of quietly returning the
songs accumulated so far. -/
theorem fetch_404_raises_instead_of_stopping :
    fetchSetlistsForYear (fun _ _ => .resp ⟨404, none, .null⟩) 2023 50 =
      (.error (.req (.retryExhaustedHttp 404)), [1]) := rfl

def isJsonObj : Json → Bool
  | .obj _ => true
  | _ => false

def isJsonList : Json → Bool
  | .arr _ => true
  | _ => false

/-- Shape under which one song entry is processed without a dynamic fault:
it must be a dict. -/
def wellShapedSong (j : Json) : Bool := isJsonObj j

/-- Shape under which one Set group is processed without a dynamic fault:
falsy groups are skipped, truthy ones must be dicts whose `song` field, if
present, is a list of dicts. -/
def wellShapedSet : Json → Bool
  | .obj fields =>
    (match lookupField fields "song" with
     | none => true
     | some (.arr l) => l.all wellShapedSong
     | some _ => false)
  | j => !truthy j

/-- Shape under which a whole setlist is processed without a dynamic fault:
a dict whose `sets` field, if present, is a dict whose `set` field, if
present, is a well-shaped group, or a list of them. -/
def wellShapedSetlist (j : Json) : Bool :=
  match j with
  | .obj fields =>
    (match lookupField fields "sets" with
     | none => true
     | some (.obj sf) =>
       (match lookupField sf "set" with
        | none => true
        | some (.arr l) => l.all wellShapedSet
        | some v => wellShapedSet v)
     | some _ => false)
  | _ => false

/-- Declarative description of extraction from one song entry: its name when
the entry is kept (present, truthy, and no truthy tape marker). -/
def specSongName (song : Json) : Option Json :=
  match song with
  | .obj fields =>
    let name := (lookupField fields "name").getD .null
    if truthy name && !truthy ((lookupField fields "tape").getD .null) then some name
    else none
  | _ => none

/-- Declarative description of extraction from one Set group. -/
def specSetSongs (s : Json) : List Json :=
  match s with
  | .obj fields =>
    (match (lookupField fields "song").getD (.arr []) with
     | .arr l => l.filterMap specSongName
     | _ => [])
  | _ => []

/-- Declarative description of extraction from a whole setlist: normalize
the `set` field to a sequence, keep the truthy groups, and concatenate their
kept song names in order. -/
def specSetlistSongs (setlist : Json) : List Json :=
  match setlist with
  | .obj fields =>
    (match (lookupField fields "sets").getD (.obj []) with
     | .obj sf =>
       (match (lookupField sf "set").getD (.arr []) with
        | .arr l => ((l.filter truthy).map specSetSongs).flatten
        | v => (((if truthy v then [v] else []).filter truthy).map specSetSongs).flatten)
     | _ => [])
  | _ => []

theorem songLoop_wellShaped : ∀ (l acc : List Json), l.all wellShapedSong = true →
    songLoop l acc = .ok (acc ++ l.filterMap specSongName)
  | [], acc, _ => by simp [songLoop]
  | song :: rest, acc, h => by
    obtain ⟨hsong, hrest⟩ : wellShapedSong song = true ∧ rest.all wellShapedSong = true := by
      simpa using h
    match song, hsong with
    | .obj fields, _ =>
      simp only [songLoop, pyGet, Bind.bind, Except.bind]
      by_cases hname : truthy ((lookupField fields "name").getD .null)
      · by_cases htape : truthy ((lookupField fields "tape").getD .null)
        · rw [if_pos hname, if_pos htape]
          rw [songLoop_wellShaped rest acc hrest]
          simp [List.filterMap_cons, specSongName, hname, htape]
        · rw [if_pos hname, if_neg htape]
          rw [songLoop_wellShaped rest (acc ++ [(lookupField fields "name").getD .null]) hrest]
          simp [List.filterMap_cons, specSongName, hname, htape]
      · rw [if_neg hname]
        rw [songLoop_wellShaped rest acc hrest]
        simp [List.filterMap_cons, specSongName, hname]

theorem setLoop_wellShaped : ∀ (l acc : List Json), l.all wellShapedSet = true →
    setLoop l acc = .ok (acc ++ ((l.filter truthy).map specSetSongs).flatten)
  | [], acc, _ => by simp [setLoop]
  | setData :: rest, acc, h => by
    obtain ⟨hset, hrest⟩ : wellShapedSet setData = true ∧ rest.all wellShapedSet = true := by
      simpa using h
    by_cases ht : truthy setData
    · match setData, ht, hset with
      | .obj fields, ht, hset =>
        rw [setLoop, if_pos ht]
        simp only [wellShapedSet] at hset
        simp only [pyGet, Bind.bind, Except.bind]
        rcases hsong : lookupField fields "song" with _ | v
        · rw [hsong] at hset
          simp only [hsong, Option.getD_none, pyIter]
          rw [songLoop_wellShaped [] acc (by simp)]
          show setLoop rest (acc ++ List.filterMap specSongName []) = _
          rw [setLoop_wellShaped rest (acc ++ List.filterMap specSongName []) hrest]
          simp [specSetSongs, hsong, ht]
        · rw [hsong] at hset
          match v, hset with
          | .arr l, hset =>
            simp only [hsong, Option.getD_some, pyIter]
            rw [songLoop_wellShaped l acc hset]
            show setLoop rest (acc ++ l.filterMap specSongName) = _
            rw [setLoop_wellShaped rest (acc ++ l.filterMap specSongName) hrest]
            simp [specSetSongs, hsong, ht]
      | .arr es, ht, hset => simp [wellShapedSet, ht] at hset
      | .str s, ht, hset => simp [wellShapedSet, ht] at hset
      | .num n, ht, hset => simp [wellShapedSet, ht] at hset
    · rw [setLoop, if_neg ht]
      rw [setLoop_wellShaped rest acc hrest]
      simp [ht]

theorem extract_wellShaped (setlist : Json) (h : wellShapedSetlist setlist = true) :
    extractSongsFromSetlist setlist = .ok (specSetlistSongs setlist) := by
  match setlist, h with
  | .obj fields, h =>
    rw [wellShapedSetlist] at h
    simp only [extractSongsFromSetlist, pyGet, Bind.bind, Except.bind]
    rcases hsets : lookupField fields "sets" with _ | v
    · show setLoop [] [] = _
      rw [setLoop_wellShaped [] [] (by simp)]
      simp [specSetlistSongs, hsets, lookupField]
    · rw [hsets] at h
      match v, h with
      | .obj sf, h =>
        replace h :
            (match lookupField sf "set" with
             | none => true
             | some (.arr l) => l.all wellShapedSet
             | some v => wellShapedSet v) = true := h
        simp only [Option.getD_some]
        rcases hset : lookupField sf "set" with _ | w
        · show setLoop [] [] = _
          rw [setLoop_wellShaped [] [] (by simp)]
          simp [specSetlistSongs, hsets, hset]
        · rw [hset] at h
          match w, h with
          | .arr l, h =>
            show setLoop l [] = _
            rw [setLoop_wellShaped l [] h]
            simp [specSetlistSongs, hsets, hset]
          | .null, h =>
            show setLoop [] [] = _
            rw [setLoop_wellShaped [] [] (by simp)]
            simp [specSetlistSongs, hsets, hset, truthy]
          | .bool b, h =>
            have hb : b = false := by simpa [wellShapedSet, truthy] using h
            subst hb
            show setLoop [] [] = _
            rw [setLoop_wellShaped [] [] (by simp)]
            simp [specSetlistSongs, hsets, hset, truthy]
          | .num n, h =>
            have hn : truthy (Json.num n) = false := by simpa [wellShapedSet] using h
            show setLoop (if truthy (Json.num n) = true then [Json.num n] else []) [] = _
            rw [show (if truthy (Json.num n) = true then [Json.num n] else []) = []
              from by simp [hn]]
            rw [setLoop_wellShaped [] [] (by simp)]
            simp [specSetlistSongs, hsets, hset, hn]
          | .str s, h =>
            have hs : truthy (Json.str s) = false := by simpa [wellShapedSet] using h
            show setLoop (if truthy (Json.str s) = true then [Json.str s] else []) [] = _
            rw [show (if truthy (Json.str s) = true then [Json.str s] else []) = []
              from by simp [hs]]
            rw [setLoop_wellShaped [] [] (by simp)]
            simp [specSetlistSongs, hsets, hset, hs]
          | .obj g, h =>
            show setLoop (if truthy (Json.obj g) = true then [Json.obj g] else []) [] = _
            by_cases hg : truthy (Json.obj g)
            · rw [show (if truthy (Json.obj g) = true then [Json.obj g] else []) = [Json.obj g]
                from by simp [hg]]
              rw [setLoop_wellShaped [Json.obj g] [] (by simpa using h)]
              simp [specSetlistSongs, hsets, hset, hg]
            · rw [show (if truthy (Json.obj g) = true then [Json.obj g] else []) = []
                from by simp [hg]]
              rw [setLoop_wellShaped [] [] (by simp)]
              simp [specSetlistSongs, hsets, hset, hg]

/-! ## Lemmas about the paginated fetch -/

/-- Processing one setlist entry only reads the entry: relative to a clean
state, arbitrary accumulated songs are appended to and an already-set flag
is kept. -/
theorem processSetlist_shift (t : String) (y : Int) (s : Json) (songs : List Json)
    (older : Bool) :
    processSetlist t y s songs older =
      match processSetlist t y s [] false with
      | .error e => .error e
      | .ok (d, trig) => .ok (songs ++ d, older || trig) := by
  simp only [processSetlist, Bind.bind, Except.bind, pure, Except.pure]
  repeat' split
  all_goals simp_all

/-- A setlist entry whose processing sets the older-data flag from a clean
state: the `elif` of line 149 fires (the 4-character year suffix is all
digits and parses below the target year, and the entry did not match the
target year). -/
def entryTriggersOlder (t : String) (year : Int) (setlist : Json) : Bool :=
  match processSetlist t year setlist [] false with
  | .ok (_, older) => older
  | .error _ => false

/-- Once set, the older-data flag survives the rest of the page loop. -/
theorem setlistsLoop_true_flag (t : String) (y : Int) :
    ∀ (l songs : List Json) (r : List Json × Bool),
      setlistsLoop t y l songs true = .ok r → r.2 = true
  | [], songs, r => by
    intro h
    simp only [setlistsLoop] at h
    cases h
    rfl
  | s :: rest, songs, r => by
    intro h
    simp only [setlistsLoop, Bind.bind, Except.bind] at h
    rw [processSetlist_shift] at h
    rcases hc : processSetlist t y s [] false with e | d
    · rw [hc] at h
      cases h
    · rw [hc] at h
      exact setlistsLoop_true_flag t y rest (songs ++ d.1) r h

/-- If some entry of the page triggers the older-data flag and the page loop
completes without a fault, the flag is set in its result. -/
theorem setlistsLoop_trigger_flag (t : String) (y : Int) :
    ∀ (l songs : List Json) (older : Bool) (r : List Json × Bool),
      (∃ s ∈ l, entryTriggersOlder t y s = true) →
      setlistsLoop t y l songs older = .ok r → r.2 = true
  | [], _, _, _ => by
    rintro ⟨s, hs, _⟩ _
    cases hs
  | s :: rest, songs, older, r => by
    rintro ⟨e, he, htrig⟩ h
    simp only [setlistsLoop, Bind.bind, Except.bind] at h
    rw [processSetlist_shift] at h
    rcases hc : processSetlist t y s [] false with err | d
    · rw [hc] at h
      cases h
    · rw [hc] at h
      rcases List.mem_cons.mp he with rfl | he'
      · have hd : d.2 = true := by
          rw [entryTriggersOlder, hc] at htrig
          exact htrig
        rw [show (d : List Json × Bool) = (d.1, d.2) from rfl, hd] at h
        simp only [Bool.or_true] at h
        exact setlistsLoop_true_flag t y rest (songs ++ d.1) r h
      · exact setlistsLoop_trigger_flag t y rest (songs ++ d.1) (older || d.2) r ⟨e, he', htrig⟩ h

/-- A setlist whose `sets` dict carries a given `set` value. -/
def setlistWithSets (j : Json) : Json := .obj [("sets", .obj [("set", j)])]

theorem setLoop_singleton_norm (j : Json) :
    setLoop (if truthy j = true then [j] else []) [] = setLoop [j] [] := by
  by_cases ht : truthy j
  · rw [if_pos ht]
  · rw [if_neg ht]
    conv_rhs => rw [setLoop, if_neg ht]

/-- C8 counterexample: on `{"sets": null}` the key is present, so `.get`
returns `null` instead of the `{}` default and the subsequent
`sets_data.get("set", [])` raises `AttributeError` — the function does raise
on this malformed input rather than degrading to an empty result. -/
theorem extract_null_sets_raises :
    extractSongsFromSetlist (.obj [("sets", .null)]) = .error .attributeError ∧
    ∀ l : List Json, extractSongsFromSetlist (.obj [("sets", .null)]) ≠ .ok l :=
  ⟨rfl, fun _ h => Except.noConfusion h⟩

/-- C8 amended: extraction never raises and returns the ordered kept titles
(tape-flagged and nameless entries excluded) on every well-shaped input —
absent keys degrade to empty results, and a single Set object, a falsy Set
value, or a sequence of Set groups all normalize to a sequence — but a
`null` value stored under the `sets` key itself raises `AttributeError`
(see the counterexample), so totality holds on the well-shaped domain, not
on all inputs. -/
theorem extract_total_on_wellshaped_and_normalizes :
    (∀ s, wellShapedSetlist s = true →
      extractSongsFromSetlist s = .ok (specSetlistSongs s)) ∧
    extractSongsFromSetlist (.obj []) = .ok [] ∧
    extractSongsFromSetlist (.obj [("sets", .obj [])]) = .ok [] ∧
    extractSongsFromSetlist (setlistWithSets (.arr [.obj [("song", .arr
      [.obj [("name", .str "Song 1")],
       .obj [("name", .str "Tape Intro"), ("tape", .bool true)],
       .obj [],
       .obj [("name", .str "Song 2")]])]])) = .ok [.str "Song 1", .str "Song 2"] ∧
    (∀ j, isJsonList j = false →
      extractSongsFromSetlist (setlistWithSets j) =
        extractSongsFromSetlist (setlistWithSets (.arr [j]))) := by
  refine ⟨extract_wellShaped, rfl, rfl, rfl, ?_⟩
  intro j hj
  have hR : extractSongsFromSetlist (setlistWithSets (.arr [j])) = setLoop [j] [] := rfl
  rw [hR]
  match j, hj with
  | .null, _ => exact setLoop_singleton_norm .null
  | .bool b, _ => exact setLoop_singleton_norm (.bool b)
  | .num n, _ => exact setLoop_singleton_norm (.num n)
  | .str s, _ => exact setLoop_singleton_norm (.str s)
  | .obj f, _ => exact setLoop_singleton_norm (.obj f)

/-- C8 witness: the sample setlist of the test fixtures is well shaped, and
a single Set object normalizes like its one-element sequence. -/
theorem extract_total_on_wellshaped_and_normalizes_witness :
    wellShapedSetlist (setlistWithSets (.arr [.obj [("song", .arr
      [.obj [("name", .str "Song 1")], .obj [("name", .str "Song 2")]])]])) = true ∧
    extractSongsFromSetlist (setlistWithSets (.arr [.obj [("song", .arr
      [.obj [("name", .str "Song 1")], .obj [("name", .str "Song 2")]])]])) =
      .ok (specSetlistSongs (setlistWithSets (.arr [.obj [("song", .arr
        [.obj [("name", .str "Song 1")], .obj [("name", .str "Song 2")]])]]))) ∧
    isJsonList (.obj [("song", .arr [.obj [("name", .str "Solo")]])]) = false ∧
    extractSongsFromSetlist (setlistWithSets (.obj [("song", .arr
      [.obj [("name", .str "Solo")]])])) =
      extractSongsFromSetlist (setlistWithSets (.arr [.obj [("song", .arr
        [.obj [("name", .str "Solo")]])]])) :=
  ⟨rfl,
   extract_total_on_wellshaped_and_normalizes.1 _ rfl,
   rfl,
   extract_total_on_wellshaped_and_normalizes.2.2.2.2 _ rfl⟩

/-- The page environment contains a setlist entry that triggers the
older-data flag: the `make_request` call succeeds and the decoded `setlist`
field iterates to entries among which one fires the `elif` of line 149. -/
def pageTriggersOlder (env : Nat → AttemptOutcome) (t : String) (year : Int) : Bool :=
  match (makeRequest env).1 with
  | .error _ => false
  | .ok r =>
    match pyGet r.body "setlist" (.arr []) with
    | .error _ => false
    | .ok setlists =>
      (match pyIter setlists with
       | .error _ => false
       | .ok l => l.any (entryTriggersOlder t year))

/-- The page environment reports the last page: the `make_request` call
succeeds and `page_num * items_per_page >= total` holds for the decoded
`total` and `itemsPerPage` fields (with their defaults 0 and 20). -/
def pageSaysLastPage (env : Nat → AttemptOutcome) (pageNum : Nat) : Bool :=
  match (makeRequest env).1 with
  | .error _ => false
  | .ok r =>
    match pyGet r.body "total" (.num 0), pyGet r.body "itemsPerPage" (.num 20) with
    | .ok total, .ok ipp =>
      (match jsonAsInt total, jsonAsInt ipp with
       | some tv, some iv => decide (tv ≤ (pageNum : Int) * iv)
       | _, _ => false)
    | _, _ => false

/-- One iteration of the page loop either ends the whole fetch at the
current page (its trace is just that page), or recurses to the next page; in
the latter case the current page satisfied every continuation condition, in
particular its page loop left the older-data flag unset and its pagination
check was not the last page. -/
theorem fetchLoop_succ_cases (pages : Nat → Nat → AttemptOutcome) (t : String) (y : Int)
    (fuel pageNum : Nat) (songs : List Json) :
    (fetchLoop pages t y (fuel + 1) pageNum songs).2 = [pageNum] ∨
    (∃ r setlists setlistList songs2,
      (makeRequest (pages pageNum)).1 = .ok r ∧
      pyGet r.body "setlist" (.arr []) = .ok setlists ∧
      pyIter setlists = .ok setlistList ∧
      setlistsLoop t y setlistList songs false = .ok (songs2, false) ∧
      pageSaysLastPage (pages pageNum) pageNum = false ∧
      (fetchLoop pages t y (fuel + 1) pageNum songs).2 =
        pageNum :: (fetchLoop pages t y fuel (pageNum + 1) songs2).2) := by
  rw [fetchLoop]
  rcases hmk : (makeRequest (pages pageNum)).1 with e | r
  · exact Or.inl rfl
  · simp only []
    by_cases h404 : (r.status == 404) = true
    · rw [if_pos h404]
      exact Or.inl rfl
    · rw [if_neg h404]
      rcases hget : pyGet r.body "setlist" (.arr []) with e | setlists
      · exact Or.inl rfl
      · simp only []
        by_cases htr : (!truthy setlists) = true
        · rw [if_pos htr]
          exact Or.inl rfl
        · rw [if_neg htr]
          rcases hiter : pyIter setlists with e | setlistList
          · exact Or.inl rfl
          · simp only []
            rcases hloop : setlistsLoop t y setlistList songs false with e | pr
            · exact Or.inl rfl
            · rcases pr with ⟨songs2, older⟩
              simp only []
              rcases older with _ | _
              · simp only [Bool.false_eq_true, if_false]
                rcases htot : pyGet r.body "total" (.num 0) with e | total
                · exact Or.inl rfl
                · rcases hipp : pyGet r.body "itemsPerPage" (.num 20) with e | ipp
                  · exact Or.inl rfl
                  · simp only []
                    rcases hjt : jsonAsInt total with _ | tv
                    · exact Or.inl rfl
                    · rcases hji : jsonAsInt ipp with _ | iv
                      · exact Or.inl rfl
                      · simp only []
                        by_cases hle : tv ≤ (pageNum : Int) * iv
                        · rw [if_pos hle]
                          exact Or.inl rfl
                        · rw [if_neg hle]
                          refine Or.inr ⟨r, setlists, setlistList, songs2,
                            ?_, ?_, ?_, ?_, ?_, rfl⟩
                          · exact hmk.symm.trans hmk
                          · exact hget
                          · exact hiter
                          · exact hloop
                          simp only [pageSaysLastPage, hmk, htot, hipp, hjt, hji]
                          simp [hle]
              · rw [if_pos rfl]
                exact Or.inl rfl

/-- Every page number in the fetch trace lies between the starting page and
the page cap. -/
theorem fetchLoop_trace_bounds (pages : Nat → Nat → AttemptOutcome) (t : String) (y : Int) :
    ∀ (fuel pageNum : Nat) (songs : List Json) (q : Nat),
      q ∈ (fetchLoop pages t y fuel pageNum songs).2 → pageNum ≤ q ∧ q < pageNum + fuel
  | 0, pageNum, songs, q => by
    intro h
    simp [fetchLoop] at h
  | fuel + 1, pageNum, songs, q => by
    intro h
    rcases fetchLoop_succ_cases pages t y fuel pageNum songs with
      hc | ⟨r, sl, slist, songs2, _, _, _, _, _, hc⟩
    · rw [hc] at h
      simp at h
      omega
    · rw [hc] at h
      rcases List.mem_cons.mp h with rfl | h'
      · omega
      · have := fetchLoop_trace_bounds pages t y fuel (pageNum + 1) songs2 q h'
        omega

/-- After a page whose entries trigger the older-data flag, no later page is
ever requested: either an exception stops the fetch at that page, or the
page loop completes, necessarily with the flag set, and the loop breaks. -/
theorem fetchLoop_stops_after_trigger (pages : Nat → Nat → AttemptOutcome) (t : String)
    (y : Int) :
    ∀ (fuel pageNum : Nat) (songs : List Json) (p q : Nat),
      p ∈ (fetchLoop pages t y fuel pageNum songs).2 →
      pageTriggersOlder (pages p) t y = true → p < q →
      q ∉ (fetchLoop pages t y fuel pageNum songs).2
  | 0, pageNum, songs, p, q => by
    intro hp _ _ _
    simp [fetchLoop] at hp
  | fuel + 1, pageNum, songs, p, q => by
    intro hp htrig hpq hq
    rcases fetchLoop_succ_cases pages t y fuel pageNum songs with
      hc | ⟨r, sl, slist, songs2, hmk, hget, hiter, hloop, _, hc⟩
    · rw [hc] at hp hq
      simp at hp hq
      omega
    · rw [hc] at hp hq
      rcases List.mem_cons.mp hp with rfl | hp'
      · simp only [pageTriggersOlder, hmk, hget, hiter] at htrig
        rcases List.any_eq_true.mp htrig with ⟨s, hs, hstrig⟩
        have hflag := setlistsLoop_trigger_flag t y slist songs false (songs2, false)
          ⟨s, hs, hstrig⟩ hloop
        simp at hflag
      · rcases List.mem_cons.mp hq with heq | hq'
        · have := (fetchLoop_trace_bounds pages t y fuel (pageNum + 1) songs2 p hp').1
          omega
        · exact fetchLoop_stops_after_trigger pages t y fuel (pageNum + 1) songs2 p q
            hp' htrig hpq hq'

/-- After a page whose pagination data reports the last page, no later page
is ever requested. -/
theorem fetchLoop_stops_after_last_page (pages : Nat → Nat → AttemptOutcome) (t : String)
    (y : Int) :
    ∀ (fuel pageNum : Nat) (songs : List Json) (p q : Nat),
      p ∈ (fetchLoop pages t y fuel pageNum songs).2 →
      pageSaysLastPage (pages p) p = true → p < q →
      q ∉ (fetchLoop pages t y fuel pageNum songs).2
  | 0, pageNum, songs, p, q => by
    intro hp _ _ _
    simp [fetchLoop] at hp
  | fuel + 1, pageNum, songs, p, q => by
    intro hp hsays hpq hq
    rcases fetchLoop_succ_cases pages t y fuel pageNum songs with
      hc | ⟨r, sl, slist, songs2, _, _, _, _, hlast, hc⟩
    · rw [hc] at hp hq
      simp at hp hq
      omega
    · rw [hc] at hp hq
      rcases List.mem_cons.mp hp with rfl | hp'
      · rw [hlast] at hsays
        exact absurd hsays (by decide)
      · rcases List.mem_cons.mp hq with heq | hq'
        · have := (fetchLoop_trace_bounds pages t y fuel (pageNum + 1) songs2 p hp').1
          omega
        · exact fetchLoop_stops_after_last_page pages t y fuel (pageNum + 1) songs2 p q
            hp' hsays hpq hq'

/-! ## Claims about the paginated fetch -/

/-- C6: once a requested page contains a setlist entry whose 4-character
year suffix is an all-digit string parsing below the target year (the
older-data trigger of line 149), no later page is ever requested — the
fetch either breaks after finishing that page or propagates an exception
raised while processing it, and in both cases issues no further request. -/
theorem fetch_stops_after_older_year_page
    (pages : Nat → Nat → AttemptOutcome) (year : Int) (maxPages : Nat) (p q : Nat)
    (hp : p ∈ (fetchSetlistsForYear pages year maxPages).2)
    (htrig : pageTriggersOlder (pages p) (toString year) year = true)
    (hpq : p < q) :
    q ∉ (fetchSetlistsForYear pages year maxPages).2 :=
  fetchLoop_stops_after_trigger pages (toString year) year maxPages 1 [] p q hp htrig hpq

/-- Page environment in which page 1 holds one 2023 setlist and one older
2020 setlist while the pagination data alone would ask for many more
pages. -/
def demoEnvOlder : Nat → Nat → AttemptOutcome := fun _ _ =>
  .resp ⟨200, none,
    .obj [("setlist", .arr
      [.obj [("eventDate", .str "15-10-2023"),
             ("sets", .obj [("set", .arr [.obj [("song",
               .arr [.obj [("name", .str "A")]])]])])],
       .obj [("eventDate", .str "01-01-2020"),
             ("sets", .obj [("set", .arr [.obj [("song",
               .arr [.obj [("name", .str "B")]])]])])]]),
      ("total", .num 1000), ("itemsPerPage", .num 20)]⟩

/-- C6 witness: with `demoEnvOlder`, page 1 is requested and triggers the
older-data flag, and page 2 is never requested. -/
theorem fetch_stops_after_older_year_page_witness :
    1 ∈ (fetchSetlistsForYear demoEnvOlder 2023 50).2 ∧
    pageTriggersOlder (demoEnvOlder 1) (toString (2023 : Int)) 2023 = true ∧
    1 < 2 ∧
    2 ∉ (fetchSetlistsForYear demoEnvOlder 2023 50).2 :=
  ⟨by decide, by decide, by decide,
   fetch_stops_after_older_year_page demoEnvOlder 2023 50 1 2 (by decide) (by decide)
     (by decide)⟩

/-- Two pages of 2023 setlists with `total = 40` and `itemsPerPage = 20`:
page 2 is the last page. -/
def demoEnvTwoPages : Nat → Nat → AttemptOutcome := fun p _ =>
  .resp ⟨200, none,
    .obj [("setlist", .arr
      [.obj [("eventDate", .str "15-10-2023"),
             ("sets", .obj [("set", .arr [.obj [("song",
               .arr (if p = 1 then [.obj [("name", .str "P1S1")],
                                    .obj [("name", .str "P1S2")]]
                     else [.obj [("name", .str "P2S1")],
                           .obj [("name", .str "P2S2")]]))]])])]]),
      ("total", .num 40), ("itemsPerPage", .num 20)]⟩

/-- C7: the fetch never requests a page outside `1..max_pages`; after a page
whose data satisfies `page_num * items_per_page >= total` no further page is
requested; and on two pages with `total = 40`, `itemsPerPage = 20` it issues
exactly the two page requests and returns the songs of both pages in
order. -/
theorem fetch_pagination_stop_conditions :
    (∀ (pages : Nat → Nat → AttemptOutcome) (year : Int) (maxPages q : Nat),
      q ∈ (fetchSetlistsForYear pages year maxPages).2 → 1 ≤ q ∧ q ≤ maxPages) ∧
    (∀ (pages : Nat → Nat → AttemptOutcome) (year : Int) (maxPages p q : Nat),
      p ∈ (fetchSetlistsForYear pages year maxPages).2 →
      pageSaysLastPage (pages p) p = true → p < q →
      q ∉ (fetchSetlistsForYear pages year maxPages).2) ∧
    fetchSetlistsForYear demoEnvTwoPages 2023 50 =
      (.ok [.str "P1S1", .str "P1S2", .str "P2S1", .str "P2S2"], [1, 2]) := by
  refine ⟨?_, ?_, rfl⟩
  · intro pages year maxPages q hq
    have := fetchLoop_trace_bounds pages (toString year) year maxPages 1 [] q hq
    omega
  · intro pages year maxPages p q hp hlast hpq
    exact fetchLoop_stops_after_last_page pages (toString year) year maxPages 1 [] p q
      hp hlast hpq

/-- C7 witness: in the two-page scenario, page 1 is within bounds, page 2
reports the last page, and page 3 is never requested. -/
theorem fetch_pagination_stop_conditions_witness :
    (1 ∈ (fetchSetlistsForYear demoEnvTwoPages 2023 50).2 ∧ 1 ≤ 1 ∧ 1 ≤ 50) ∧
    (2 ∈ (fetchSetlistsForYear demoEnvTwoPages 2023 50).2 ∧
      pageSaysLastPage (demoEnvTwoPages 2) 2 = true ∧ 2 < 3 ∧
      3 ∉ (fetchSetlistsForYear demoEnvTwoPages 2023 50).2) :=
  ⟨⟨by decide, (fetch_pagination_stop_conditions.1 demoEnvTwoPages 2023 50 1 (by decide)).1,
    (fetch_pagination_stop_conditions.1 demoEnvTwoPages 2023 50 1 (by decide)).2⟩,
   ⟨by decide, by decide, by decide,
    fetch_pagination_stop_conditions.2.1 demoEnvTwoPages 2023 50 2 3 (by decide) (by decide)
      (by decide)⟩⟩
